import Mathlib

/-!
Verification of the authentication gate and realtime broadcaster of the
Digital Agency Management Platform backend (`src/backend/server_production.py`).

The Python source delegates to three libraries whose observable semantics we
embed shallowly:

* PyJWT (`jwt.encode` / `jwt.decode`, HS256): a token is the signed payload
  together with the secret it was signed with; `decode` with a different
  secret raises `InvalidSignatureError`, an `exp` claim that is `<=` the
  current time raises `ExpiredSignatureError`, and undecodable input raises
  `DecodeError` — all subclasses of `PyJWTError`.
* bcrypt (`hashpw` / `checkpw`): `hashpw` is a salted one-way digest of the
  UTF-8 bytes of the password; the bcrypt algorithm only uses the first 72
  bytes of the password, ignoring the rest (documented bcrypt behaviour).
  We model the digest extensionally as an injective keyed function of the
  truncated byte string, with the random `gensalt()` value passed explicitly.
  `checkpw(p, h)` recomputes the digest with the salt stored in `h` and
  compares.
* MongoDB collections: ordered lists of documents; `find_one` is the first
  match, `insert_one` appends, `update_one`/`delete_one` affect the first
  match, `delete_many` removes all matches.

Time is an integer (seconds since the epoch, `datetime.utcnow()`), passed
explicitly to each operation that reads the clock.
-/

set_option autoImplicit false

namespace Agency

/-- Decidable equality for `Except`, so that handler results can be evaluated
on concrete inputs. -/
instance exceptDecEq {ε α : Type} [DecidableEq ε] [DecidableEq α] :
    DecidableEq (Except ε α) := fun x y =>
  match x, y with
  | .error a, .error b =>
    if h : a = b then isTrue (h ▸ rfl)
    else isFalse (fun hc => h (Except.error.inj hc))
  | .ok a, .ok b =>
    if h : a = b then isTrue (h ▸ rfl)
    else isFalse (fun hc => h (Except.ok.inj hc))
  | .error _, .ok _ => isFalse (fun hc => Except.noConfusion hc)
  | .ok _, .error _ => isFalse (fun hc => Except.noConfusion hc)

/-- A JWT payload. The source builds the payload as an open `dict`; the claims
of interest to the specification are the subject `sub` (set by every caller of
`create_access_token` via `data={"sub": ...}`), the expiry `exp` (set by
`create_access_token` itself), and the issued-at claim `iat` (which the
specification mentions; the source never writes it, which the `iat` field lets
us observe). -/
structure Payload where
  sub : Option String
  exp : Option Int
  iat : Option Int
  deriving DecidableEq, Repr

/-- A token produced by `jwt.encode`: the payload together with the signing
secret (HS256 signature is determined by payload and secret). `malformed`
stands for any byte string that does not decode as a JWT at all. -/
inductive Token where
  | signed (payload : Payload) (secret : String)
  | malformed
  deriving DecidableEq, Repr

/-- The three verification failures PyJWT distinguishes internally; all are
subclasses of `PyJWTError`. -/
inductive JWTError where
  | malformed
  | invalidSignature
  | expired
  deriving DecidableEq, Repr

/-- An HTTP error response as produced by FastAPI's `HTTPException`: the
status code and the `detail` string are both visible to the external caller
(the detail is returned in the JSON body). -/
structure HTTPError where
  status_code : Nat
  detail : String
  deriving DecidableEq, Repr

/-- Model of `jwt.decode(token, secret, algorithms=[JWT_ALGORITHM])`:
signature verification, then expiry validation. PyJWT treats the token as
expired when `exp <= now` (zero leeway). A payload without `exp` passes. -/
def jwt_decode (t : Token) (secret : String) (now : Int) : Except JWTError Payload :=
  match t with
  | .malformed => .error .malformed
  | .signed payload s =>
    if s = secret then
      match payload.exp with
      | some e => if e ≤ now then .error .expired else .ok payload
      | none => .ok payload
    else .error .invalidSignature

/-- Model of `create_access_token` (server_production.py lines 168-176).
`to_encode = data.copy()` then `exp` is set to `utcnow() + expires_delta` when
`expires_delta` is truthy (a zero `timedelta` is falsy in Python and is
ignored), else `utcnow() + timedelta(days=7)`; the result is signed with the
module secret, passed here explicitly. Note no `iat` claim is written. -/
def create_access_token (data : Payload) (expires_delta : Option Int) (now : Int)
    (secret : String) : Token :=
  let expire : Int :=
    match expires_delta with
    | some d => if d = 0 then now + 7 * 86400 else now + d
    | none => now + 7 * 86400
  .signed { data with exp := some expire } secret

/-- A bcrypt hash: the salt together with the digest. The digest is modeled
extensionally by the (at most 72) password bytes it is an injective keyed
function of. -/
structure Hash where
  salt : Nat
  key : List Nat
  deriving DecidableEq, Repr

/-- Model of `hash_password` (line 162): `bcrypt.hashpw(password.encode('utf-8'),
bcrypt.gensalt())`. The password argument is the UTF-8 byte sequence of the
plaintext; bcrypt uses only its first 72 bytes. The random salt from
`gensalt()` is an explicit argument. -/
def hash_password (password : List Nat) (salt : Nat) : Hash :=
  ⟨salt, password.take 72⟩

/-- Model of `verify_password` (line 165): `bcrypt.checkpw` recomputes the
digest of the candidate with the salt embedded in the stored hash and
compares the results. -/
def verify_password (plain_password : List Nat) (hashed_password : Hash) : Bool :=
  hash_password plain_password hashed_password.salt = hashed_password

/-- A user document in the `users` collection, as written by `register_user`. -/
structure User where
  user_id : String
  name : String
  email : String
  password : Hash
  role : String
  created_at : Int
  deriving DecidableEq, Repr

/-- Model of `get_current_user` (lines 178-192) applied to an already
extracted bearer token. `jwt.decode` failures (`PyJWTError`) and a missing
`sub` claim both yield 401 "Invalid token"; a subject with no user document
yields 401 "User not found"; otherwise the user document is returned. The
`HTTPException`s raised inside the `try` block are not `PyJWTError`s and
propagate unchanged. -/
def get_current_user (token : Token) (secret : String) (now : Int)
    (users : List User) : Except HTTPError User :=
  match jwt_decode token secret now with
  | .error _ => .error ⟨401, "Invalid token"⟩
  | .ok payload =>
    match payload.sub with
    | none => .error ⟨401, "Invalid token"⟩
    | some user_id =>
      match users.find? (fun u => u.user_id == user_id) with
      | none => .error ⟨401, "User not found"⟩
      | some user => .ok user

/-- The `UserResponse` Pydantic model (lines 112-117): the public projection of
a user document, without the password hash. -/
structure UserResp where
  user_id : String
  name : String
  email : String
  role : String
  created_at : Int
  deriving DecidableEq, Repr

/-- Build a `UserResponse` from a user document. -/
def toUserResp (u : User) : UserResp :=
  ⟨u.user_id, u.name, u.email, u.role, u.created_at⟩

/-- The `UserCreate` request model (lines 102-106). The password field is the
UTF-8 byte sequence of the submitted password. -/
structure UserCreate where
  name : String
  email : String
  password : List Nat
  role : String
  deriving DecidableEq, Repr

/-- The body returned by a successful registration (lines 270-275). -/
structure RegisterResp where
  message : String
  access_token : Token
  token_type : String
  user : UserResp
  deriving DecidableEq, Repr

/-- Model of `register_user` (lines 245-275). `find_one({"email": ...})` is
the first user document with that email; a hit raises 400 before any write,
leaving the store unchanged. Otherwise a fresh document is inserted whose
`password` field is the bcrypt hash, and a token for the new `user_id` is
issued. The generated `uuid4`, the bcrypt salt, the clock and the module
secret are explicit arguments. -/
def register_user (user : UserCreate) (users : List User) (user_id : String)
    (salt : Nat) (now : Int) (secret : String) :
    Except HTTPError RegisterResp × List User :=
  match users.find? (fun u => u.email == user.email) with
  | some _ => (.error ⟨400, "Email already registered"⟩, users)
  | none =>
    let hashed_password := hash_password user.password salt
    let new_user : User :=
      ⟨user_id, user.name, user.email, hashed_password, user.role, now⟩
    let access_token := create_access_token ⟨some user_id, none, none⟩ none now secret
    (.ok ⟨"User created successfully", access_token, "bearer", toUserResp new_user⟩,
      users ++ [new_user])

/-! ## Realtime broadcaster (socket.io rooms) -/

/-- The socket.io server's room table: room name to the connections (sids)
currently in the room, in join order. -/
abbrev RoomState := List (String × List String)

/-- The connections currently in `room` (empty when the room is absent). -/
def roomMembers (rs : RoomState) (room : String) : List String :=
  match List.find? (fun e => e.1 == room) rs with
  | some e => e.2
  | none => []

/-- Model of `sio.enter_room(sid, room)`: adds `sid` to the room, creating the
room on first join; joining a room one is already in is a no-op. -/
def enter_room (sid room : String) : RoomState → RoomState
  | [] => [(room, [sid])]
  | (r, ms) :: rest =>
    if r == room then (r, if ms.contains sid then ms else ms ++ [sid]) :: rest
    else (r, ms) :: enter_room sid room rest

/-- Room-scoped broadcast: `sio.emit(event, data, room=room)` delivers the
event data to every connection currently in the room, and to nothing else.
Returns the list of (connection, delivered data) pairs. -/
def emit {α : Type} (rs : RoomState) (room : String) (data : α) :
    List (String × α) :=
  (roomMembers rs room).map (fun sid => (sid, data))

/-- The room name used for a project's updates throughout the source:
`f"project_{project_id}"`. -/
def projectRoom (project_id : String) : String :=
  "project_" ++ project_id

/-- The data dict a socket client sends to `join_project` / `task_updated`:
the `project_id` entry (`data.get('project_id')` is `none` when absent) plus
the rest of the payload, abstracted as a string. -/
structure SocketData where
  project_id : Option String
  rest : String
  deriving DecidableEq, Repr

/-- Model of the `join_project` socket handler (lines 204-209): when
`data.get('project_id')` is truthy (present and non-empty) the connection
enters the project's room; otherwise nothing happens. No token is consulted
and no project lookup is made. (The confirmation message emitted back to
`sid` alone is not part of the room state.) -/
def join_project (sid : String) (data : SocketData) (rs : RoomState) : RoomState :=
  match data.project_id with
  | some project_id => if project_id = "" then rs else enter_room sid (projectRoom project_id) rs
  | none => rs

/-- Model of the `task_updated` socket handler (lines 211-215): when
`data.get('project_id')` is truthy, the whole client-supplied `data` is
broadcast as a `task_update` event to the project's room; otherwise nothing
is emitted. No token is consulted and no project lookup is made. Returns the
deliveries performed. -/
def task_updated_handler (_sid : String) (data : SocketData) (rs : RoomState) :
    List (String × SocketData) :=
  match data.project_id with
  | some project_id => if project_id = "" then [] else emit rs (projectRoom project_id) data
  | none => []

/-! ## Project and task CRUD (HTTP handlers) -/

/-- A project document in the `projects` collection, as written by
`create_project`. -/
structure Project where
  project_id : String
  name : String
  description : String
  client_name : String
  status : String
  team_members : List UserResp
  created_at : Int
  created_by : String
  deriving DecidableEq, Repr

/-- What the `assigned_to` field of a stored task document can hold: `null`,
an embedded `UserResponse` dict, or — through `update_task`'s falsy branch
with an explicit empty string — the raw value itself. -/
inductive AssignedStored where
  | null
  | userDoc (u : UserResp)
  | raw (s : String)
  deriving DecidableEq, Repr

/-- A task document in the `tasks` collection. `create_task` writes every
field non-null, but `update_task` can `$set` the updatable string fields to
JSON null, so they are nullable here as in the document store. -/
structure Task where
  task_id : String
  title : Option String
  description : Option String
  status : Option String
  assigned_to : AssignedStored
  priority : Option String
  project_id : String
  created_at : Int
  created_by : String
  updated_at : Option Int
  deriving DecidableEq, Repr

/-- The `TaskCreate` request model (lines 136-141). -/
structure TaskCreate where
  title : String
  description : String
  status : String
  assigned_to : Option String
  priority : String
  deriving DecidableEq, Repr

/-- The `TaskUpdate` request model (lines 154-159) under
`model_dump(exclude_unset=True)`: for each field, `none` means the client did
not send the field at all, `some v` means the field was sent with value `v`
(where `v` itself may be JSON null, i.e. `none`). -/
structure TaskUpdate where
  title : Option (Option String)
  description : Option (Option String)
  status : Option (Option String)
  assigned_to : Option (Option String)
  priority : Option (Option String)
  deriving DecidableEq, Repr

/-- An event emitted by an HTTP handler to a project room: the event name,
the target room, and the payload (the serialized task for created/updated,
the bare `task_id` for deleted, plus the `project_id` all payloads carry). -/
structure Emission where
  event : String
  room : String
  payload_task : Option Task
  payload_task_id : Option String
  payload_project_id : String
  deriving DecidableEq, Repr

/-- Model of `delete_project` (lines 372-382): 404 when no project document
matches, else `delete_one` removes the first matching project and
`delete_many` removes every task of the project. Nothing is emitted. -/
def delete_project (project_id : String) (projects : List Project)
    (tasks : List Task) : Except HTTPError Unit × List Project × List Task :=
  match projects.find? (fun p => p.project_id == project_id) with
  | none => (.error ⟨404, "Project not found"⟩, projects, tasks)
  | some _ =>
    (.ok (), projects.eraseP (fun p => p.project_id == project_id),
      tasks.filter (fun t => t.project_id != project_id))

/-- Model of `get_project_tasks` (lines 426-429): all task documents whose
`project_id` matches, in store order. -/
def get_project_tasks (project_id : String) (tasks : List Task) : List Task :=
  tasks.filter (fun t => t.project_id == project_id)

/-- The assigned-user resolution of `create_task` (lines 394-399):
`assigned_user` stays `None` unless `task.assigned_to` is truthy and the
user is found. -/
def resolveAssigned (assigned_to : Option String) (users : List User) : AssignedStored :=
  match assigned_to with
  | some s =>
    if s = "" then .null
    else
      match users.find? (fun u => u.user_id == s) with
      | some u => .userDoc (toUserResp u)
      | none => .null
  | none => .null

/-- Model of `create_task` (lines 385-424): 404 when the project does not
exist; otherwise the new task document is inserted and a `task_created`
event is emitted to the project's room. The generated `uuid4`, the current
user's id and the clock are explicit arguments. -/
def create_task (project_id : String) (task : TaskCreate) (projects : List Project)
    (users : List User) (tasks : List Task) (task_id user_id : String) (now : Int) :
    Except HTTPError Task × List Task × List Emission :=
  match projects.find? (fun p => p.project_id == project_id) with
  | none => (.error ⟨404, "Project not found"⟩, tasks, [])
  | some _ =>
    let new_task : Task :=
      ⟨task_id, some task.title, some task.description, some task.status,
        resolveAssigned task.assigned_to users, some task.priority,
        project_id, now, user_id, none⟩
    (.ok new_task, tasks ++ [new_task],
      [⟨"task_created", projectRoom project_id, some new_task, none, project_id⟩])

/-- The `update_data` dict built by `update_task` (lines 437-449): for each
request field, absent when unset, otherwise the value to `$set`; the
`assigned_to` value goes through the truthiness check and user lookup of
lines 439-445; `updated_at` is always set. -/
structure UpdateData where
  title : Option (Option String)
  description : Option (Option String)
  status : Option (Option String)
  assigned_to : Option AssignedStored
  priority : Option (Option String)
  updated_at : Int
  deriving DecidableEq, Repr

/-- Build `update_data` from the request (lines 437-449). A truthy
`assigned_to` value (non-null, non-empty) is resolved to the user's
`UserResponse` dict, or to null when the user does not exist; a falsy value
(`None` or `""`) is stored as sent. -/
def buildUpdateData (upd : TaskUpdate) (users : List User) (now : Int) : UpdateData where
  title := upd.title
  description := upd.description
  status := upd.status
  assigned_to :=
    match upd.assigned_to with
    | none => none
    | some v =>
      some (match v with
        | some s =>
          if s = "" then .raw ""
          else
            match users.find? (fun u => u.user_id == s) with
            | some u => .userDoc (toUserResp u)
            | none => .null
        | none => .null)
  priority := upd.priority
  updated_at := now

/-- Apply a `$set` of `update_data` to one task document: fields present in
the dict are overwritten, the rest are untouched. -/
def applyUpdate (d : UpdateData) (t : Task) : Task :=
  { t with
    title := d.title.getD t.title
    description := d.description.getD t.description
    status := d.status.getD t.status
    assigned_to := d.assigned_to.getD t.assigned_to
    priority := d.priority.getD t.priority
    updated_at := some d.updated_at }

/-- `update_one(filter, {"$set": ...})`: rewrite the first document matching
the predicate, leave every other document unchanged. -/
def updateFirst (pred : Task → Bool) (f : Task → Task) : List Task → List Task
  | [] => []
  | t :: rest => if pred t then f t :: rest else t :: updateFirst pred f rest

/-- Model of `update_task` (lines 431-461): 404 when no task matches both
`task_id` and `project_id`; otherwise `update_one({"task_id": task_id})`
applies the `$set` to the first document with that `task_id` alone, the
updated document is re-read by `find_one({"task_id": task_id})`, a
`task_updated` event carrying it is emitted to the project's room, and it is
returned. (The re-read cannot fail after a successful first lookup; the
fallback branch mirrors the 500 the source's `TaskResponse(**None)` crash
would produce.) -/
def update_task (project_id task_id : String) (task_update : TaskUpdate)
    (users : List User) (tasks : List Task) (now : Int) :
    Except HTTPError Task × List Task × List Emission :=
  match tasks.find? (fun t => t.task_id == task_id && t.project_id == project_id) with
  | none => (.error ⟨404, "Task not found"⟩, tasks, [])
  | some _ =>
    let d := buildUpdateData task_update users now
    let tasks' := updateFirst (fun t => t.task_id == task_id) (applyUpdate d) tasks
    match tasks'.find? (fun t => t.task_id == task_id) with
    | none => (.error ⟨500, "Internal Server Error"⟩, tasks', [])
    | some updated_task =>
      (.ok updated_task, tasks',
        [⟨"task_updated", projectRoom project_id, some updated_task, none, project_id⟩])

/-- Model of `delete_task` (lines 463-477): 404 when no task matches both
ids; otherwise `delete_one` removes the first document with that `task_id`
and a `task_deleted` event is emitted to the project's room. -/
def delete_task (project_id task_id : String) (tasks : List Task) :
    Except HTTPError Unit × List Task × List Emission :=
  match tasks.find? (fun t => t.task_id == task_id && t.project_id == project_id) with
  | none => (.error ⟨404, "Task not found"⟩, tasks, [])
  | some _ =>
    (.ok (), tasks.eraseP (fun t => t.task_id == task_id),
      [⟨"task_deleted", projectRoom project_id, none, some task_id, project_id⟩])

/-! ## Theorems -/

/-- C1: for every subject `s`, decoding a token freshly issued by
`create_access_token(data={"sub": s})` with the same signing secret, at any
time before the embedded expiry (issuance time plus the default 7-day TTL),
succeeds and recovers exactly the subject `s` — the decoding performed by
`get_current_user` before its user lookup. -/
theorem c1_issue_verify_roundtrip (s secret : String) (t now : Int)
    (h : now < t + 7 * 86400) :
    jwt_decode (create_access_token ⟨some s, none, none⟩ none t secret) secret now
      = .ok ⟨some s, some (t + 7 * 86400), none⟩ ∧
    (Payload.mk (some s) (some (t + 7 * 86400)) none).sub = some s := by
  refine ⟨?_, rfl⟩
  simp [create_access_token, jwt_decode]
  omega

/-- Witness for C1 at subject "u1", secret "k", issued at time 0 and decoded
at time 0. -/
theorem c1_issue_verify_roundtrip_witness :
    jwt_decode (create_access_token ⟨some "u1", none, none⟩ none 0 "k") "k" 0
      = .ok ⟨some "u1", some (0 + 7 * 86400), none⟩ ∧
    (Payload.mk (some "u1") (some (0 + 7 * 86400)) none).sub = some "u1" :=
  c1_issue_verify_roundtrip "u1" "k" 0 0 (by decide)

/-- C2 counterexample: the claim says every token-verification failure kind
produces one indistinguishable unauthorized outcome, but the response for a
verified token whose subject has no user record (`detail = "User not found"`)
differs from the response for a malformed token (`detail = "Invalid token"`),
and FastAPI returns the `detail` string to the external caller. -/
theorem c2_counterexample :
    get_current_user .malformed "k" 0 [] = .error ⟨401, "Invalid token"⟩ ∧
    get_current_user (.signed ⟨some "u1", some 100, none⟩ "k") "k" 0 []
      = .error ⟨401, "User not found"⟩ ∧
    (HTTPError.mk 401 "Invalid token") ≠ (HTTPError.mk 401 "User not found") := by
  refine ⟨rfl, by decide, by decide⟩

/-- C2 (amended): every failure of `get_current_user` yields status 401; the
four token-verification failures (malformed, invalid signature, expired,
missing subject) all yield the identical response `401 "Invalid token"` and
are mutually indistinguishable; a verified token whose subject does not
resolve to a user yields `401 "User not found"` — the same status but a
distinguishable detail string. -/
theorem c2_unauthorized_collapse (token : Token) (secret : String) (now : Int)
    (users : List User) :
    (∀ e, get_current_user token secret now users = .error e →
      e.status_code = 401 ∧ (e.detail = "Invalid token" ∨ e.detail = "User not found")) ∧
    (∀ err, jwt_decode token secret now = .error err →
      get_current_user token secret now users = .error ⟨401, "Invalid token"⟩) ∧
    (∀ payload, jwt_decode token secret now = .ok payload → payload.sub = none →
      get_current_user token secret now users = .error ⟨401, "Invalid token"⟩) ∧
    (∀ payload user_id, jwt_decode token secret now = .ok payload →
      payload.sub = some user_id →
      users.find? (fun u => u.user_id == user_id) = none →
      get_current_user token secret now users = .error ⟨401, "User not found"⟩) := by
  refine ⟨?_, ?_, ?_, ?_⟩
  · intro e he
    rcases hd : jwt_decode token secret now with err | payload
    · simp only [get_current_user, hd, Except.error.injEq] at he
      subst he
      exact ⟨rfl, Or.inl rfl⟩
    · rcases hs : payload.sub with _ | uid
      · simp only [get_current_user, hd, hs, Except.error.injEq] at he
        subst he
        exact ⟨rfl, Or.inl rfl⟩
      · rcases hf : users.find? (fun u => u.user_id == uid) with _ | u
        · simp only [get_current_user, hd, hs, hf, Except.error.injEq] at he
          subst he
          exact ⟨rfl, Or.inr rfl⟩
        · simp [get_current_user, hd, hs, hf] at he
  · intro err hd
    simp [get_current_user, hd]
  · intro payload hd hs
    simp [get_current_user, hd, hs]
  · intro payload user_id hd hs hf
    simp [get_current_user, hd, hs, hf]

/-- Witness for the amended C2: a malformed token, a valid token without a
subject, and a valid token for an absent user, all against an empty store. -/
theorem c2_unauthorized_collapse_witness :
    get_current_user .malformed "k" 5 [] = .error ⟨401, "Invalid token"⟩ ∧
    get_current_user (.signed ⟨none, some 99, none⟩ "k") "k" 5 []
      = .error ⟨401, "Invalid token"⟩ ∧
    get_current_user (.signed ⟨some "u9", some 99, none⟩ "k") "k" 5 []
      = .error ⟨401, "User not found"⟩ :=
  ⟨(c2_unauthorized_collapse .malformed "k" 5 []).2.1 .malformed rfl,
   (c2_unauthorized_collapse (.signed ⟨none, some 99, none⟩ "k") "k" 5 []).2.2.1
     ⟨none, some 99, none⟩ (by decide) rfl,
   (c2_unauthorized_collapse (.signed ⟨some "u9", some 99, none⟩ "k") "k" 5 []).2.2.2
     ⟨some "u9", some 99, none⟩ "u9" (by decide) rfl rfl⟩

/-- C3: a token that decodes and verifies successfully but whose subject does
not resolve to an existing user document is rejected by `get_current_user`
with the unauthorized (user-not-found) outcome, never accepted. -/
theorem c3_deleted_user_rejected (token : Token) (secret : String) (now : Int)
    (users : List User) (payload : Payload) (user_id : String)
    (hdec : jwt_decode token secret now = .ok payload)
    (hsub : payload.sub = some user_id)
    (hmiss : users.find? (fun u => u.user_id == user_id) = none) :
    get_current_user token secret now users = .error ⟨401, "User not found"⟩ := by
  simp [get_current_user, hdec, hsub, hmiss]

/-- Witness for C3: an unexpired, correctly signed token for subject "u9"
against a store that has no user "u9". -/
theorem c3_deleted_user_rejected_witness :
    get_current_user (.signed ⟨some "u9", some 99, none⟩ "k") "k" 5 []
      = .error ⟨401, "User not found"⟩ :=
  c3_deleted_user_rejected (.signed ⟨some "u9", some 99, none⟩ "k") "k" 5 []
    ⟨some "u9", some 99, none⟩ "u9" (by decide) rfl rfl

/-- C4 counterexample: the claim says every issued credential claim contains
a subject, an issued-at time and an expiry, but the payload issued for
subject "u1" carries no issued-at claim at all (`iat = none`):
`create_access_token` only adds `exp` to the caller's data. -/
theorem c4_counterexample :
    create_access_token ⟨some "u1", none, none⟩ none 0 "k"
      = .signed ⟨some "u1", some (0 + 7 * 86400), none⟩ "k" ∧
    (Payload.mk (some "u1") (some (0 + 7 * 86400)) none).iat = none :=
  ⟨rfl, rfl⟩

/-- C4 (amended): every issued credential claim carries the subject supplied
by the caller and an expiry equal to the issuance time plus the 7-day default
TTL — or issuance time plus `expires_delta` when a non-zero override is
supplied (a zero delta is falsy in Python and is ignored) — but no issued-at
claim is embedded (`iat` is passed through unchanged, and every caller passes
none). -/
theorem c4_claim_contents (data : Payload) (expires_delta : Option Int)
    (now : Int) (secret : String) :
    ∃ payload : Payload,
      create_access_token data expires_delta now secret = .signed payload secret ∧
      payload.sub = data.sub ∧ payload.iat = data.iat ∧
      payload.exp = some (match expires_delta with
        | some d => if d = 0 then now + 7 * 86400 else now + d
        | none => now + 7 * 86400) := by
  refine ⟨_, rfl, rfl, rfl, ?_⟩
  rcases expires_delta with _ | d
  · rfl
  · by_cases hd : d = 0 <;> simp [create_access_token, hd]

/-- C5 counterexample: the claim says `verify_password` returns false for any
wrong password, but bcrypt only uses the first 72 bytes of the password: two
distinct 73-byte passwords agreeing on their first 72 bytes verify against
each other's hashes. -/
theorem c5_counterexample :
    (List.replicate 72 97 ++ [98] : List Nat) ≠ List.replicate 72 97 ++ [99] ∧
    verify_password (List.replicate 72 97 ++ [99])
      (hash_password (List.replicate 72 97 ++ [98]) 0) = true := by
  constructor
  · decide
  · decide

/-- C5 (amended): for every password `p`,
`verify_password p (hash_password p salt)` is true; `verify_password` returns
false (it does not throw) for any candidate whose first 72 bytes differ from
those of the hashed password — candidates agreeing with the original on the
first 72 bytes are accepted, because bcrypt ignores the bytes beyond 72. -/
theorem c5_password_roundtrip :
    (∀ (p : List Nat) (salt : Nat),
      verify_password p (hash_password p salt) = true) ∧
    (∀ (p p' : List Nat) (salt : Nat), p.take 72 ≠ p'.take 72 →
      verify_password p' (hash_password p salt) = false) := by
  constructor
  · intro p salt
    simp [verify_password, hash_password]
  · intro p p' salt h
    simp only [verify_password, hash_password, decide_eq_false_iff_not]
    intro hc
    exact h (congrArg Hash.key hc).symm

/-- Witness for the amended C5: the one-byte password `[0]` verifies against
its own hash and the different password `[1]` is rejected. -/
theorem c5_password_roundtrip_witness :
    verify_password [0] (hash_password [0] 5) = true ∧
    verify_password [1] (hash_password [0] 5) = false :=
  ⟨c5_password_roundtrip.1 [0] 5, c5_password_roundtrip.2 [0] [1] 5 (by decide)⟩

/-- C6: `register_user` checks email uniqueness before inserting: a request
whose email is already held by some stored user fails with the Conflict
response (400 "Email already registered") and leaves the store unchanged; a
request with a fresh email appends exactly one document whose `password`
field is the bcrypt hash of the submitted password — the cleartext is not
stored. -/
theorem c6_register_unique_email (user : UserCreate) (users : List User)
    (user_id : String) (salt : Nat) (now : Int) (secret : String) :
    ((∃ u ∈ users, u.email = user.email) →
      register_user user users user_id salt now secret
        = (.error ⟨400, "Email already registered"⟩, users)) ∧
    ((∀ u ∈ users, u.email ≠ user.email) →
      register_user user users user_id salt now secret
        = (.ok ⟨"User created successfully",
            create_access_token ⟨some user_id, none, none⟩ none now secret, "bearer",
            toUserResp ⟨user_id, user.name, user.email,
              hash_password user.password salt, user.role, now⟩⟩,
          users ++ [⟨user_id, user.name, user.email,
              hash_password user.password salt, user.role, now⟩])) := by
  rcases hf : users.find? (fun u => u.email == user.email) with _ | u
  · constructor
    · rintro ⟨u, hu, he⟩
      exact absurd (by simpa using he) (List.find?_eq_none.mp hf u hu)
    · intro _
      simp [register_user, hf]
  · constructor
    · intro _
      simp [register_user, hf]
    · intro hall
      have hmem := List.mem_of_find?_eq_some hf
      have hp := List.find?_some hf
      exact absurd (by simpa using hp) (hall u hmem)

/-- Witness for C6: against a store holding the email "a@x.com", registering
that email again is rejected and the store is unchanged; registering
"b@x.com" appends the hashed document. -/
theorem c6_register_unique_email_witness :
    register_user ⟨"B", "a@x.com", [2], "developer"⟩
        [⟨"u1", "A", "a@x.com", hash_password [1] 3, "developer", 0⟩] "u2" 4 1 "k"
      = (.error ⟨400, "Email already registered"⟩,
         [⟨"u1", "A", "a@x.com", hash_password [1] 3, "developer", 0⟩]) ∧
    register_user ⟨"B", "b@x.com", [2], "developer"⟩
        [⟨"u1", "A", "a@x.com", hash_password [1] 3, "developer", 0⟩] "u2" 4 1 "k"
      = (.ok ⟨"User created successfully",
            create_access_token ⟨some "u2", none, none⟩ none 1 "k", "bearer",
            toUserResp ⟨"u2", "B", "b@x.com", hash_password [2] 4, "developer", 1⟩⟩,
         [⟨"u1", "A", "a@x.com", hash_password [1] 3, "developer", 0⟩,
          ⟨"u2", "B", "b@x.com", hash_password [2] 4, "developer", 1⟩]) :=
  ⟨(c6_register_unique_email ⟨"B", "a@x.com", [2], "developer"⟩
      [⟨"u1", "A", "a@x.com", hash_password [1] 3, "developer", 0⟩] "u2" 4 1 "k").1
      ⟨⟨"u1", "A", "a@x.com", hash_password [1] 3, "developer", 0⟩, by simp, rfl⟩,
   (c6_register_unique_email ⟨"B", "b@x.com", [2], "developer"⟩
      [⟨"u1", "A", "a@x.com", hash_password [1] 3, "developer", 0⟩] "u2" 4 1 "k").2
      (by decide)⟩

/-- C7: room-scoped broadcast delivers the event to all and only the
connections currently in the target room: a delivery `(sid, e)` happens in
`emit rs (projectRoom p) ev` — the publish primitive behind both the
`task_updated` socket relay and the HTTP handlers' room emissions — exactly
when `e` is the published event and `sid` is currently a member of project
`p`'s room; in particular a connection subscribed only to another room
receives nothing. -/
theorem c7_publish_all_and_only {α : Type} (rs : RoomState) (project_id : String)
    (ev : α) (pr : String × α) :
    pr ∈ emit rs (projectRoom project_id) ev ↔
      pr.2 = ev ∧ pr.1 ∈ roomMembers rs (projectRoom project_id) := by
  obtain ⟨sid, e⟩ := pr
  simp only [emit, List.mem_map, Prod.mk.injEq]
  constructor
  · rintro ⟨a, ha, rfl, rfl⟩
    exact ⟨rfl, ha⟩
  · rintro ⟨rfl, hmem⟩
    exact ⟨sid, hmem, rfl, rfl⟩

/-- Erasing the first match from a list with at most one match leaves a list
with no match (justifies that the unique index on `project_id` makes
`delete_one` remove every matching project document). -/
theorem find?_eraseP_eq_none {α : Type} (p : α → Bool) (l : List α)
    (h : l.countP p ≤ 1) : (l.eraseP p).find? p = none := by
  induction l with
  | nil => simp
  | cons x xs ih =>
    by_cases hx : p x
    · rw [List.eraseP_cons_of_pos hx, List.find?_eq_none]
      intro a ha
      have hc : xs.countP p = 0 := by
        rw [List.countP_cons_of_pos p xs hx] at h
        omega
      exact List.countP_eq_zero.mp hc a ha
    · rw [List.eraseP_cons_of_neg hx, List.find?_cons_of_neg _ hx]
      apply ih
      rw [List.countP_cons_of_neg p xs hx] at h
      exact h

/-- After `delete_many({"project_id": p})`, no task document matches a task
lookup scoped to project `p`. -/
theorem find?_task_of_deleted (project_id task_id : String) (tasks : List Task) :
    (tasks.filter (fun t => t.project_id != project_id)).find?
      (fun t => t.task_id == task_id && t.project_id == project_id) = none := by
  rw [List.find?_eq_none]
  intro t ht
  have h2 := (List.mem_filter.mp ht).2
  simp only [bne_iff_ne, ne_eq] at h2
  simp only [Bool.and_eq_true, beq_iff_eq, not_and]
  intro _ hp
  exact h2 hp

/-- After `delete_many({"project_id": p})`, the task query for `p` is empty. -/
theorem get_project_tasks_of_deleted (project_id : String) (tasks : List Task) :
    get_project_tasks project_id (tasks.filter (fun t => t.project_id != project_id)) = [] := by
  unfold get_project_tasks
  rw [List.filter_filter, List.filter_eq_nil_iff]
  intro t _
  simp

/-- C8 counterexample: the claim says no further event is ever published to a
deleted project's now-defunct room, but after `delete_project "p1"` succeeds
the unauthenticated `task_updated` socket handler still broadcasts any
client-supplied payload into room `project_p1`, delivering it to the room's
remaining subscriber `c2`. -/
theorem c8_counterexample :
    delete_project "p1" [⟨"p1", "N", "D", "C", "planning", [], 0, "u1"⟩] []
      = (.ok (), [], []) ∧
    task_updated_handler "c9" ⟨some "p1", "x"⟩ [("project_p1", ["c2"])]
      = [("c2", ⟨some "p1", "x"⟩)] := by
  constructor
  · decide
  · decide

/-- C8 (amended): after `delete_project` succeeds for project `P` (whose
identifier is unique in the store, as the unique index guarantees), every
subsequent task query for `P` returns the empty list, and no further events
are published to `P`'s room through the HTTP task-mutation handlers — create,
update and delete of a task under `P` all fail with 404 and emit nothing.
(The unauthenticated `task_updated` socket relay can still broadcast into the
room, per the counterexample.) -/
theorem c8_delete_cascade (project_id : String) (projects : List Project)
    (tasks : List Task) (projects' : List Project) (tasks' : List Task)
    (h : delete_project project_id projects tasks = (.ok (), projects', tasks'))
    (huniq : projects.countP (fun q => q.project_id == project_id) ≤ 1) :
    get_project_tasks project_id tasks' = [] ∧
    (∀ (tc : TaskCreate) (users : List User) (task_id user_id : String) (now : Int),
      create_task project_id tc projects' users tasks' task_id user_id now
        = (.error ⟨404, "Project not found"⟩, tasks', [])) ∧
    (∀ (task_id : String) (upd : TaskUpdate) (users : List User) (now : Int),
      update_task project_id task_id upd users tasks' now
        = (.error ⟨404, "Task not found"⟩, tasks', [])) ∧
    (∀ task_id : String, delete_task project_id task_id tasks'
        = (.error ⟨404, "Task not found"⟩, tasks', [])) := by
  rcases hf : projects.find? (fun p => p.project_id == project_id) with _ | q
  · simp [delete_project, hf] at h
  · simp only [delete_project, hf] at h
    injection h with h1 h23
    injection h23 with h2 h3
    subst h2
    subst h3
    refine ⟨get_project_tasks_of_deleted project_id tasks, ?_, ?_, ?_⟩
    · intro tc users task_id user_id now
      have hnone := find?_eraseP_eq_none (fun p => p.project_id == project_id) projects huniq
      simp [create_task, hnone]
    · intro task_id upd users now
      have hnone := find?_task_of_deleted project_id task_id tasks
      simp [update_task, hnone]
    · intro task_id
      have hnone := find?_task_of_deleted project_id task_id tasks
      simp [delete_task, hnone]

/-- Witness for the amended C8: deleting project "p1" (one project, one task)
empties the store; the task query is empty and deleting a task under "p1"
404s with no emission. -/
theorem c8_delete_cascade_witness :
    get_project_tasks "p1" ([] : List Task) = [] ∧
    delete_task "p1" "t1" ([] : List Task)
      = (.error ⟨404, "Task not found"⟩, [], []) :=
  ⟨(c8_delete_cascade "p1" [⟨"p1", "N", "D", "C", "planning", [], 0, "u1"⟩]
      [⟨"t1", some "A", some "B", some "todo", .null, some "medium", "p1", 0, "u1", none⟩]
      [] [] (by decide) (by decide)).1,
   (c8_delete_cascade "p1" [⟨"p1", "N", "D", "C", "planning", [], 0, "u1"⟩]
      [⟨"t1", some "A", some "B", some "todo", .null, some "medium", "p1", 0, "u1", none⟩]
      [] [] (by decide) (by decide)).2.2.2 "t1"⟩

/-- When `tk` is the only task with the given `task_id`, `update_one` rewrites
exactly `tk`, and re-reading by `task_id` returns the rewritten document. -/
theorem updateFirst_find?_unique (task_id : String) (f : Task → Task) (tk : Task)
    (hid : tk.task_id = task_id) (hf : (f tk).task_id = tk.task_id)
    (tasks : List Task) (hmem : tk ∈ tasks)
    (huniq : ∀ t ∈ tasks, t.task_id = task_id → t = tk) :
    (updateFirst (fun t => t.task_id == task_id) f tasks).find?
        (fun t => t.task_id == task_id) = some (f tk) := by
  induction tasks with
  | nil => cases hmem
  | cons x xs ih =>
    by_cases hx : x.task_id = task_id
    · have hxtk : x = tk := huniq x (List.mem_cons_self x xs) hx
      simp only [updateFirst]
      rw [if_pos (by simp [hx]), hxtk, List.find?_cons_of_pos _ (by simp [hf, hid])]
    · have hmem' : tk ∈ xs := by
        rcases List.mem_cons.mp hmem with h | h
        · exact absurd (h ▸ hid) hx
        · exact h
      simp only [updateFirst]
      rw [if_neg (by simp [hx]), List.find?_cons_of_neg _ (by simp [hx])]
      exact ih hmem' (fun t ht h => huniq t (List.mem_cons_of_mem x ht) h)

/-- C9: `update_task` modifies only the fields explicitly present in the
request (plus `updated_at`). For an existing task `tk` — unique for its
`task_id`, as the unique index guarantees — the whole result is the `$set`
of `update_data` applied to `tk` alone, every field left unset in the
`TaskUpdate` is unchanged in the stored document, and `task_id`,
`project_id`, `created_at` and `created_by` are never altered. -/
theorem c9_update_task_frame (project_id task_id : String) (upd : TaskUpdate)
    (users : List User) (tasks : List Task) (now : Int) (tk : Task)
    (hfind : tasks.find? (fun t => t.task_id == task_id && t.project_id == project_id)
      = some tk)
    (huniq : ∀ t ∈ tasks, t.task_id = task_id → t = tk) :
    update_task project_id task_id upd users tasks now
      = (.ok (applyUpdate (buildUpdateData upd users now) tk),
         updateFirst (fun t => t.task_id == task_id)
           (applyUpdate (buildUpdateData upd users now)) tasks,
         [⟨"task_updated", projectRoom project_id,
           some (applyUpdate (buildUpdateData upd users now) tk), none, project_id⟩]) ∧
    ((applyUpdate (buildUpdateData upd users now) tk).task_id = tk.task_id ∧
     (applyUpdate (buildUpdateData upd users now) tk).project_id = tk.project_id ∧
     (applyUpdate (buildUpdateData upd users now) tk).created_at = tk.created_at ∧
     (applyUpdate (buildUpdateData upd users now) tk).created_by = tk.created_by ∧
     (upd.title = none →
       (applyUpdate (buildUpdateData upd users now) tk).title = tk.title) ∧
     (upd.description = none →
       (applyUpdate (buildUpdateData upd users now) tk).description = tk.description) ∧
     (upd.status = none →
       (applyUpdate (buildUpdateData upd users now) tk).status = tk.status) ∧
     (upd.assigned_to = none →
       (applyUpdate (buildUpdateData upd users now) tk).assigned_to = tk.assigned_to) ∧
     (upd.priority = none →
       (applyUpdate (buildUpdateData upd users now) tk).priority = tk.priority) ∧
     (applyUpdate (buildUpdateData upd users now) tk).updated_at = some now) := by
  have hid : tk.task_id = task_id := by
    have hp := List.find?_some hfind
    simp only [Bool.and_eq_true, beq_iff_eq] at hp
    exact hp.1
  have hmem := List.mem_of_find?_eq_some hfind
  constructor
  · have hcore := updateFirst_find?_unique task_id
      (applyUpdate (buildUpdateData upd users now)) tk hid rfl tasks hmem huniq
    simp only [update_task, hfind, hcore]
  · refine ⟨rfl, rfl, rfl, rfl, ?_, ?_, ?_, ?_, ?_, rfl⟩ <;>
      intro h <;> simp [applyUpdate, buildUpdateData, h]

/-- Witness for C9: updating only the title of the single stored task "t1"
in project "p1". -/
theorem c9_update_task_frame_witness :
    update_task "p1" "t1" ⟨some (some "New"), none, none, none, none⟩ []
        [⟨"t1", some "A", some "B", some "todo", .null, some "medium", "p1", 0, "u1", none⟩] 9
      = (.ok (applyUpdate (buildUpdateData ⟨some (some "New"), none, none, none, none⟩ [] 9)
            ⟨"t1", some "A", some "B", some "todo", .null, some "medium", "p1", 0, "u1", none⟩),
         updateFirst (fun t => t.task_id == "t1")
           (applyUpdate (buildUpdateData ⟨some (some "New"), none, none, none, none⟩ [] 9))
           [⟨"t1", some "A", some "B", some "todo", .null, some "medium", "p1", 0, "u1", none⟩],
         [⟨"task_updated", projectRoom "p1",
           some (applyUpdate (buildUpdateData ⟨some (some "New"), none, none, none, none⟩ [] 9)
             ⟨"t1", some "A", some "B", some "todo", .null, some "medium", "p1", 0, "u1", none⟩),
           none, "p1"⟩]) :=
  (c9_update_task_frame "p1" "t1" ⟨some (some "New"), none, none, none, none⟩ []
    [⟨"t1", some "A", some "B", some "todo", .null, some "medium", "p1", 0, "u1", none⟩] 9
    ⟨"t1", some "A", some "B", some "todo", .null, some "medium", "p1", 0, "u1", none⟩
    (by decide) (by decide)).1

/-- Joining a room adds the joining connection to that room's member set. -/
theorem mem_roomMembers_enter_room (sid room : String) (rs : RoomState) :
    sid ∈ roomMembers (enter_room sid room rs) room := by
  induction rs with
  | nil => simp [enter_room, roomMembers]
  | cons e rest ih =>
    obtain ⟨r, ms⟩ := e
    by_cases hr : r = room
    · subst hr
      by_cases hc : sid ∈ ms
      · have h1 : enter_room sid r ((r, ms) :: rest) = (r, ms) :: rest := by
          simp [enter_room, hc]
        rw [h1]
        have h2 : roomMembers ((r, ms) :: rest) r = ms := by
          simp [roomMembers, List.find?_cons]
        rw [h2]
        exact hc
      · have h1 : enter_room sid r ((r, ms) :: rest)
            = (r, ms ++ [sid]) :: rest := by
          simp [enter_room, hc]
        rw [h1]
        have h2 : roomMembers ((r, ms ++ [sid]) :: rest) r = ms ++ [sid] := by
          simp [roomMembers, List.find?_cons]
        rw [h2]
        simp
    · have h1 : enter_room sid room ((r, ms) :: rest)
          = (r, ms) :: enter_room sid room rest := by
        simp [enter_room, hr]
      rw [h1]
      have h2 : roomMembers ((r, ms) :: enter_room sid room rest) room
          = roomMembers (enter_room sid room rest) room := by
        simp [roomMembers, List.find?_cons, hr]
      rw [h2]
      exact ih

/-- C10 counterexample: the claim quantifies over every project identifier,
but `data.get('project_id')` is truthiness-tested: for the (falsy) empty
identifier, `join_project` leaves the room state unchanged and the connection
is in no room, rather than being added to the project's room. -/
theorem c10_counterexample :
    join_project "c1" ⟨some "", "x"⟩ [] = ([] : RoomState) ∧
    roomMembers (join_project "c1" ⟨some "", "x"⟩ []) (projectRoom "") = [] :=
  ⟨rfl, rfl⟩

/-- C10 (amended): the socket-event interface performs no authentication or
authorization: for every connection `sid` and every non-empty (truthy)
project identifier `p`, `join_project` adds `sid` to `p`'s room and
`task_updated` broadcasts the client-supplied data into `p`'s room — both
functions take no credential and consult no project store, so there is no
precondition that `sid` presented a valid token or that `p` exists; for a
missing or empty `project_id` the handlers do nothing. -/
theorem c10_socket_no_auth (sid project_id : String) (hne : project_id ≠ "")
    (rs : RoomState) (rest : String) :
    sid ∈ roomMembers (join_project sid ⟨some project_id, rest⟩ rs)
        (projectRoom project_id) ∧
    task_updated_handler sid ⟨some project_id, rest⟩ rs
      = emit rs (projectRoom project_id) ⟨some project_id, rest⟩ := by
  constructor
  · simp only [join_project, if_neg hne]
    exact mem_roomMembers_enter_room sid (projectRoom project_id) rs
  · simp [task_updated_handler, hne]

/-- Witness for the amended C10: a fresh connection "c1" with no credential
joins the room of the (nonexistent) project "p1" starting from an empty room
table, and the relay broadcasts into that room. -/
theorem c10_socket_no_auth_witness :
    "c1" ∈ roomMembers (join_project "c1" ⟨some "p1", "x"⟩ []) (projectRoom "p1") ∧
    task_updated_handler "c1" ⟨some "p1", "x"⟩ []
      = emit [] (projectRoom "p1") ⟨some "p1", "x"⟩ :=
  c10_socket_no_auth "c1" "p1" (by decide) [] "x"

end Agency
